import Mathlib

/-!
Verification of the order/stock domain core of a restaurant management
backend (Django apps `orders` and `products`).

The embedding below translates the domain logic of
`src/orders/models.py`, `src/products/models.py`, `src/products/signals.py`
and the stock-adjustment admin action of `src/products/admin.py` into pure
Lean functions.  Python `Decimal` arithmetic is exact, so monetary values
are embedded as rationals (`ℚ`); Python `int` fields are embedded as `Int`
(Django `IntegerField` is signed) or `Nat` where the field is a
`PositiveIntegerField`.
-/

namespace EstudosJG

/-- Monetary amounts.  Python `Decimal` values are exact rationals; the code
never uses binary floating point for money. -/
abbrev Money := ℚ

/-- A monetary value representable with two decimal places, as a
`DecimalField(decimal_places=2)` column holds.  `q` has two decimal places
exactly when `q * 100` is an integer. -/
def hasTwoDecimalPlaces (q : Money) : Prop := (q * 100).den = 1

instance (q : Money) : Decidable (hasTwoDecimalPlaces q) := by
  unfold hasTwoDecimalPlaces
  infer_instance

/-- Order status values (`Order.STATUS_CHOICES`, src/orders/models.py).
`open` is a Lean keyword, so the first status is rendered `open_`. -/
inductive Status
| open_
| preparing
| ready
| out_for_delivery
| delivered
| cancelled
deriving DecidableEq, Repr

/-- Embeds `Order.VALID_TRANSITIONS` (src/orders/models.py lines 45-52):
the status transition table. -/
def VALID_TRANSITIONS : Status → List Status
| .open_ => [.preparing, .cancelled]
| .preparing => [.ready, .cancelled]
| .ready => [.out_for_delivery, .delivered]
| .out_for_delivery => [.delivered]
| .delivered => []
| .cancelled => []

/-- Embeds `OrderItemCustomization` (src/orders/models.py): only the priced part
matters to the totals logic. -/
structure OrderItemCustomization where
  extra_price : Money
deriving DecidableEq, Repr

/-- Embeds `OrderItem` (src/orders/models.py): quantity is a `PositiveIntegerField`
and `unit_price` a non-nullable decimal column, so both are embedded as
total fields (the `None` guard at the top of `OrderItem.subtotal` cannot
fire on persisted rows). -/
structure OrderItem where
  quantity : ℕ
  unit_price : Money
  customizations : List OrderItemCustomization
deriving DecidableEq, Repr

/-- Embeds `OrderItem.subtotal` (src/orders/models.py lines 394-407):
`unit_price * quantity` plus the sum of customization extra prices, the
latter multiplied by the quantity as well.  The Django `Sum` aggregate
returns `NULL` on an empty set, replaced by `Decimal('0.00')` — i.e. the
empty sum is zero, as `List.sum` gives. -/
def OrderItem.subtotal (it : OrderItem) : Money :=
  let base_price := it.unit_price * (it.quantity : Money)
  let extras := (it.customizations.map (·.extra_price)).sum
  base_price + extras * (it.quantity : Money)

/-- Embeds `Order` (src/orders/models.py), restricted to the fields the financial
calculator and the status machine read or write. -/
structure Order where
  status : Status
  items : List OrderItem
  is_delivery : Bool
  subtotal : Money
  delivery_fee : Money
  discount : Money
  tax : Money
  total : Money
deriving DecidableEq, Repr

/-- Embeds `Order.calculate_totals` (src/orders/models.py lines 237-256):
sums the item subtotals (decimal zero identity), defaults the delivery fee
to 5.00 when the order is a delivery and the fee is exactly zero, sets
`tax = (subtotal + delivery_fee) * 0.10` and
`total = subtotal + delivery_fee + tax - discount`.  The Python line
`self.delivery_fee = Decimal(self.delivery_fee)` is a type coercion with no
numeric effect. -/
def Order.calculate_totals (o : Order) : Order :=
  let items_total := (o.items.map OrderItem.subtotal).sum
  let fee := if o.is_delivery = true ∧ o.delivery_fee = 0 then (5 : Money) else o.delivery_fee
  let tax := (items_total + fee) * (1/10)
  { o with
    subtotal := items_total
    delivery_fee := fee
    tax := tax
    total := items_total + fee + tax - o.discount }

/-- Embeds `Order.can_change_status` (src/orders/models.py lines 312-314):
`self.items.exists()`. -/
def Order.can_change_status (o : Order) : Bool := !o.items.isEmpty

/-- Failure conditions of `Order.change_status`.  Both are raised as Django
`ValidationError`s; the spec names them `InvalidTransition` and
`EmptyOrderTransition` by their messages. -/
inductive TransitionError
| invalidTransition (current target : Status)
| emptyOrderTransition
deriving DecidableEq, Repr

/-- Embeds `Order.change_status` (src/orders/models.py lines 282-310): no-op
success on an unchanged status; `InvalidTransition` when the target is not
in the transition table row of the current status; `EmptyOrderTransition`
when the target is not `cancelled` and the order has no items; otherwise
the status is updated.  The `save()` side effects on success (total
recomputation, timestamps) do not touch the status and are modelled by the
other operations of this file. -/
def Order.change_status (o : Order) (new_status : Status) : Except TransitionError Order :=
  if new_status = o.status then .ok o
  else if new_status ∉ VALID_TRANSITIONS o.status then
    .error (.invalidTransition o.status new_status)
  else if new_status ≠ .cancelled ∧ o.can_change_status = false then
    .error .emptyOrderTransition
  else .ok { o with status := new_status }

/-- Product status values (`Product.STATUS_CHOICES`, src/products/models.py). -/
inductive ProductStatus
| active
| inactive
| out_of_stock
| coming_soon
deriving DecidableEq, Repr

/-- Embeds `Product` (src/products/models.py), restricted to the stock-relevant
fields: `manage_stock`, `stock_quantity` (a signed `IntegerField`),
`low_stock_threshold` and `status`. -/
structure Product where
  manage_stock : Bool
  stock_quantity : Int
  low_stock_threshold : Int
  status : ProductStatus
deriving DecidableEq, Repr

/-- The `pre_save` signal `update_product_status`
(src/products/signals.py lines 8-15): on every save of a stock-managed
product, quantity at or below zero forces `out_of_stock`, and a positive
quantity on a product currently marked `out_of_stock` restores `active`. -/
def update_product_status (p : Product) : Product :=
  if p.manage_stock = true then
    if p.stock_quantity ≤ 0 then { p with status := .out_of_stock }
    else if p.status = .out_of_stock ∧ p.stock_quantity > 0 then { p with status := .active }
    else p
  else p

/-- Embeds `Product.save` (src/products/models.py lines 318-332), restricted to the
stock/status fields: the method body forces `out_of_stock` when
`manage_stock` is set and the quantity is at or below zero, then
`super().save()` fires the `pre_save` signal `update_product_status`.
SKU/slug generation touches no stock field and is omitted. -/
def Product.save (p : Product) : Product :=
  update_product_status
    (if p.manage_stock = true ∧ p.stock_quantity ≤ 0 then { p with status := .out_of_stock }
     else p)

/-- Embeds `Product.reduce_stock` (src/products/models.py lines 384-392): on a
stock-managed product, decrement and save when enough stock is available,
else report failure without touching the product; without stock
management, report success and change nothing. -/
def Product.reduce_stock (p : Product) (quantity : Int) : Product × Bool :=
  if p.manage_stock = true then
    if p.stock_quantity ≥ quantity then
      (Product.save { p with stock_quantity := p.stock_quantity - quantity }, true)
    else (p, false)
  else (p, true)

/-- Embeds `Product.increase_stock` (src/products/models.py lines 394-400):
increment and save when stock is managed; always report success. -/
def Product.increase_stock (p : Product) (quantity : Int) : Product × Bool :=
  if p.manage_stock = true then
    (Product.save { p with stock_quantity := p.stock_quantity + quantity }, true)
  else (p, true)

/-- Stock movement types (`StockMovement.MOVEMENT_TYPES`,
src/products/models.py): `in`, `out`, `adjustment`, `return` — the two
Lean keywords among them are rendered `in_` and `return_`. -/
inductive MovementType
| in_
| out
| adjustment
| return_
deriving DecidableEq, Repr

/-- Embeds `StockMovement` (src/products/models.py lines 632-696), restricted to
the bookkeeping fields: signed delta `quantity`, and the
`previous_quantity`/`new_quantity` snapshots. -/
structure StockMovement where
  movement_type : MovementType
  quantity : Int
  previous_quantity : Int
  new_quantity : Int
deriving DecidableEq, Repr

/-- Failure condition of recording a stock movement (`InsufficientStock`
in the spec's error taxonomy). -/
inductive StockError
| insufficientStock
deriving DecidableEq, Repr

/-- Modelled from the spec: the `record_movement` service of §4.4 is not in
src/ — the repository only holds its collaborators: the `StockMovement`
model (src/products/models.py lines 632-696), the adjustment-creating
admin action `update_stock` (src/products/admin.py lines 93-123, which
stores `quantity = target - previous` and `new_quantity = target`), and
the `post_save` signal `update_product_stock_from_movement`
(src/products/signals.py lines 18-23), which writes the created entry's
`new_quantity` onto the product and saves it.  Per the spec, inbound /
outbound / return movements apply a delta (`amount` is the magnitude, an
outbound delta counts negatively), an adjustment sets the absolute target
`amount` and derives the delta, and an outbound movement that would drive
`new_quantity` below zero on a stock-managed product is rejected with
`InsufficientStock`, leaving product and ledger untouched.  On success the
signal's write-back and product save are applied. -/
def record_movement (p : Product) (t : MovementType) (amount : Int) :
    Except StockError (StockMovement × Product) :=
  let previous := p.stock_quantity
  let delta :=
    match t with
    | .in_ => amount
    | .return_ => amount
    | .out => -amount
    | .adjustment => amount - previous
  let newq := previous + delta
  if t = .out ∧ p.manage_stock = true ∧ newq < 0 then .error .insufficientStock
  else .ok (⟨t, delta, previous, newq⟩, Product.save { p with stock_quantity := newq })

/-- Applies a sequence of movement requests to a product: each successful
`record_movement` appends its ledger entry and continues from the updated
product; a rejected request changes nothing. -/
def apply_movements (p : Product) : List (MovementType × Int) → Product × List StockMovement
  | [] => (p, [])
  | (t, a) :: rest =>
    match record_movement p t a with
    | .error _ => apply_movements p rest
    | .ok (m, p2) =>
      let r := apply_movements p2 rest
      (r.1, m :: r.2)

/-- Decimal digit list of `n`, most significant first (`[0]` for zero),
mirroring the digits Python's decimal rendering of an `int` emits. -/
def decimalDigits (n : Nat) : List Nat :=
  if n = 0 then [0] else (Nat.digits 10 n).reverse

/-- Python `str(n)` for a non-negative `int`: the decimal digits as
characters. -/
def natStr (n : Nat) : String := String.mk ((decimalDigits n).map Nat.digitChar)

/-- Python `f"{n:03d}"`: the decimal rendering left-padded with `'0'` to at
least three characters. -/
def pad3 (n : Nat) : String :=
  if n < 10 then "00" ++ natStr n
  else if n < 100 then "0" ++ natStr n
  else natStr n

/-- The order number rendered by `Order.save` (src/orders/models.py line
210): `f"PD-{date_str}-{new_number:03d}"`. -/
def mkOrderNumber (date_str : String) (n : Nat) : String :=
  ("PD-" ++ date_str ++ "-") ++ pad3 n

/-- The sequence number chosen by `Order.save` (src/orders/models.py lines
196-210) for a new same-day order: the same-day orders are read in
creation order and the chronologically last one's numeric suffix plus one
is used; `1` when the day has no orders yet.  (The code re-parses the
suffix from the stored string with `int(order_number.split('-')[-1])`;
the last `-`-separated component of a rendered number is exactly the
zero-padded decimal suffix it was rendered from — see `decodeNumber_pad3`
— so the model keeps the suffix as a number.) -/
def next_order_number (todays_suffixes : List Nat) : Nat :=
  match todays_suffixes.getLast? with
  | some last => last + 1
  | none => 1

/-- Sequentially create `n` orders on one day, starting from a day with no
orders: the list of assigned sequence suffixes in creation order. -/
def createOrders : Nat → List Nat
  | 0 => []
  | n + 1 =>
    let prev := createOrders n
    prev ++ [next_order_number prev]

/-- Left inverse of `Nat.digitChar` on decimal digits (Python
`int(digit_character)`). -/
def charDigit (c : Char) : Nat := c.toNat - 48

/-- Reads a decimal string back as a number, as Python `int(s)` does on a
string of digits. -/
def decodeNumber (s : String) : Nat := Nat.ofDigits 10 ((s.data.map charDigit).reverse)

lemma charDigit_digitChar {d : Nat} (hd : d < 10) : charDigit (Nat.digitChar d) = d := by
  revert hd
  revert d
  decide

lemma decimalDigits_lt (n : Nat) : ∀ x ∈ decimalDigits n, x < 10 := by
  intro x hx
  unfold decimalDigits at hx
  by_cases h : n = 0
  · simp [h] at hx
    omega
  · rw [if_neg h, List.mem_reverse] at hx
    exact Nat.digits_lt_base (by norm_num) hx

lemma map_charDigit_digitChar {l : List Nat} (hl : ∀ x ∈ l, x < 10) :
    (l.map Nat.digitChar).map charDigit = l := by
  rw [List.map_map]
  have h := List.map_congr_left (l := l) (f := charDigit ∘ Nat.digitChar) (g := id)
    (fun a ha => charDigit_digitChar (hl a ha))
  rw [h, List.map_id]

lemma decodeNumber_natStr_append (n : Nat) (zs : List Char)
    (hz : ∀ c ∈ zs, c = '0') :
    decodeNumber (String.mk zs ++ natStr n) = n := by
  unfold decodeNumber natStr
  rw [String.data_append]
  show Nat.ofDigits 10 (((zs ++ (decimalDigits n).map Nat.digitChar).map charDigit).reverse) = n
  rw [List.map_append, map_charDigit_digitChar (decimalDigits_lt n), List.reverse_append]
  have hzmap : zs.map charDigit = List.replicate zs.length 0 := by
    rw [List.eq_replicate_iff]
    constructor
    · simp
    · intro b hb
      rcases List.mem_map.mp hb with ⟨c, hc, hcb⟩
      rw [hz c hc] at hcb
      simp [charDigit] at hcb
      omega
  have hrz : (zs.map charDigit).reverse = List.replicate zs.length 0 := by
    rw [hzmap, List.reverse_replicate]
  rw [hrz, Nat.ofDigits_append]
  have hzero : Nat.ofDigits 10 (List.replicate zs.length (0 : ℕ)) = 0 := by
    induction zs.length with
    | zero => simp [Nat.ofDigits]
    | succ k ih => simp [List.replicate_succ, Nat.ofDigits, ih]
  rw [hzero]
  unfold decimalDigits
  by_cases h : n = 0
  · simp [h, Nat.ofDigits]
  · rw [if_neg h, List.reverse_reverse, Nat.ofDigits_digits]
    ring

/-- Reading back the zero-padded rendering recovers the number: the
round-trip behind `int(order_number.split('-')[-1])`. -/
lemma decodeNumber_pad3 (n : Nat) : decodeNumber (pad3 n) = n := by
  unfold pad3
  split_ifs with h1 h2
  · have : ("00" : String) = String.mk ['0', '0'] := rfl
    rw [this, decodeNumber_natStr_append]
    intro c hc
    rw [List.mem_cons, List.mem_singleton] at hc
    rcases hc with h | h <;> exact h
  · have : ("0" : String) = String.mk ['0'] := rfl
    rw [this, decodeNumber_natStr_append]
    intro c hc
    rw [List.mem_singleton] at hc
    exact hc
  · have : natStr n = String.mk [] ++ natStr n := by
      cases natStr n
      rfl
    rw [this, decodeNumber_natStr_append]
    intro c hc
    exact absurd hc (List.not_mem_nil c)

lemma pad3_injective : Function.Injective pad3 := by
  intro a b h
  have := congrArg decodeNumber h
  rwa [decodeNumber_pad3, decodeNumber_pad3] at this

lemma string_data_inj {a b : String} (h : a.data = b.data) : a = b := by
  cases a
  cases b
  simp_all

lemma mkOrderNumber_injective (date_str : String) :
    Function.Injective (mkOrderNumber date_str) := by
  intro a b h
  unfold mkOrderNumber at h
  apply pad3_injective
  have hdata := congrArg String.data h
  simp only [String.data_append, List.append_assoc] at hdata
  exact string_data_inj
    (List.append_cancel_left (List.append_cancel_left (List.append_cancel_left hdata)))

lemma createOrders_eq_range' (n : Nat) : createOrders n = List.range' 1 n := by
  induction n with
  | zero => rfl
  | succ m ih =>
    show createOrders m ++ [next_order_number (createOrders m)] = _
    rw [ih]
    have hnext : next_order_number (List.range' 1 m) = m + 1 := by
      cases m with
      | zero => rfl
      | succ k =>
        unfold next_order_number
        rw [List.range'_concat, List.getLast?_concat]
        simp
        omega
    rw [hnext, List.range'_concat]
    simp [Nat.add_comm]

/-- The call reported success (no `ValidationError` was raised). -/
def succeeded {ε α : Type} (r : Except ε α) : Bool :=
  match r with
  | .ok _ => true
  | .error _ => false

/-- A one-line-item order in the initial status, used to instantiate the
universally quantified theorems. -/
def openOrder : Order :=
  { status := .open_
    items := [{ quantity := 1, unit_price := 10, customizations := [] }]
    is_delivery := false
    subtotal := 0
    delivery_fee := 0
    discount := 0
    tax := 0
    total := 0 }

/-- An order with no line items in status `ready`. -/
def emptyReadyOrder : Order :=
  { status := .ready
    items := []
    is_delivery := false
    subtotal := 0
    delivery_fee := 0
    discount := 0
    tax := 0
    total := 0 }

/-- An order with no line items in status `open`. -/
def emptyOpenOrder : Order := { emptyReadyOrder with status := .open_ }

end EstudosJG

namespace EstudosJG

/-- C1: for every order and target status different from the current one,
`change_status` fails with `InvalidTransition` exactly when the target is
not in the transition table's row for the current status; for a target in
the table, the call on an order with at least one line item succeeds; and
the terminal states `delivered` and `cancelled` have empty rows. -/
theorem change_status_transition_legality (o : Order) (t : Status) (hne : t ≠ o.status) :
    (o.change_status t = .error (.invalidTransition o.status t) ↔ t ∉ VALID_TRANSITIONS o.status)
    ∧ (t ∈ VALID_TRANSITIONS o.status → o.items ≠ [] →
        o.change_status t = .ok { o with status := t })
    ∧ VALID_TRANSITIONS .delivered = [] ∧ VALID_TRANSITIONS .cancelled = [] := by
  refine ⟨?_, ?_, rfl, rfl⟩
  · unfold Order.change_status
    rw [if_neg hne]
    by_cases hmem : t ∈ VALID_TRANSITIONS o.status
    · rw [if_neg (by simp [hmem])]
      constructor
      · intro habs
        split_ifs at habs
        simp_all
      · intro h
        exact absurd hmem h
    · rw [if_pos (by simp [hmem])]
      simp [hmem]
  · intro hmem hitems
    unfold Order.change_status
    rw [if_neg hne, if_neg (by simp [hmem]), if_neg]
    have hcan : o.can_change_status = true := by
      unfold Order.can_change_status
      simp [hitems]
    simp [hcan]

/-- Witness for C1 at a concrete input: the `open → preparing` transition
on a one-item order succeeds. -/
theorem change_status_transition_legality_witness :
    openOrder.change_status .preparing = .ok { openOrder with status := .preparing } :=
  (change_status_transition_legality openOrder .preparing (by decide)).2.1
    (by decide) (by decide)

/-- C2 counterexample: the claim says cancellation always succeeds
regardless of item count, but cancelling an order in status `ready` fails
with `InvalidTransition`, because `cancelled` is not in the transition
table's row for `ready` and that check precedes everything else. -/
theorem change_status_cancel_from_ready_counterexample :
    emptyReadyOrder.change_status .cancelled
      = .error (.invalidTransition .ready .cancelled) := rfl

/-- C2 amended: for an order with zero line items, `change_status` to a
target that is in the allowed set of the current status and differs from
`cancelled` fails with `EmptyOrderTransition`; cancellation succeeds
regardless of item count whenever `cancelled` is in the allowed set of the
current status or already is the current status (otherwise it fails with
`InvalidTransition`, which is checked first). -/
theorem change_status_empty_order_guard :
    (∀ o : Order, ∀ t : Status, o.items = [] → t ≠ o.status →
        t ∈ VALID_TRANSITIONS o.status → t ≠ .cancelled →
        o.change_status t = .error .emptyOrderTransition)
    ∧ (∀ o : Order, (Status.cancelled ∈ VALID_TRANSITIONS o.status ∨ Status.cancelled = o.status) →
        succeeded (o.change_status .cancelled) = true) := by
  constructor
  · intro o t hempty hne hmem hcan
    unfold Order.change_status
    rw [if_neg hne, if_neg (by simp [hmem]), if_pos]
    refine ⟨hcan, ?_⟩
    unfold Order.can_change_status
    simp [hempty]
  · intro o hc
    unfold Order.change_status
    by_cases hcur : Status.cancelled = o.status
    · rw [if_pos hcur]
      rfl
    · rw [if_neg hcur]
      rcases hc with hmem | hmem
      · rw [if_neg (by simp [hmem]), if_neg (by simp)]
        rfl
      · exact absurd hmem hcur

/-- Witness for C2 (amended) at concrete inputs: progressing an empty open
order to `preparing` hits the empty-order guard, and cancelling the same
order succeeds. -/
theorem change_status_empty_order_guard_witness :
    emptyOpenOrder.change_status .preparing = .error .emptyOrderTransition
    ∧ succeeded (emptyOpenOrder.change_status .cancelled) = true :=
  ⟨change_status_empty_order_guard.1 emptyOpenOrder .preparing (by decide) (by decide)
      (by decide) (by decide),
    change_status_empty_order_guard.2 emptyOpenOrder (Or.inl (by decide))⟩

/-- An order holding a single one-unit line item priced at five cents: the
smallest kind of input on which `tax = (subtotal + delivery_fee) * 0.10`
leaves the two-decimal grid. -/
def centsOrder : Order :=
  { status := .open_
    items := [{ quantity := 1, unit_price := 5/100, customizations := [] }]
    is_delivery := false
    subtotal := 0
    delivery_fee := 0
    discount := 0
    tax := 0
    total := 0 }

/-- C3 counterexample: the claim says the tax is rounded/stored at 2
decimal places, but `calculate_totals` performs no rounding — on an order
whose only item costs 0.05, the computed tax is 0.005, which has three
decimal places. -/
theorem calculate_totals_tax_not_two_decimals_counterexample :
    ¬ hasTwoDecimalPlaces (centsOrder.calculate_totals).tax := by
  have h : (centsOrder.calculate_totals).tax = 1/200 := by
    norm_num [centsOrder, Order.calculate_totals, OrderItem.subtotal]
  rw [hasTwoDecimalPlaces, h]
  norm_num

/-- C3 amended: after `calculate_totals`,
`tax = (subtotal + delivery_fee) * 0.10` computed exactly — with decimal
(never binary floating point) arithmetic, but with no rounding step, so
the tax has two decimal places only when `subtotal + delivery_fee` is a
multiple of 0.10 — and `total = subtotal + delivery_fee + tax - discount`
holds exactly. -/
theorem calculate_totals_exact_arithmetic (o : Order) :
    (o.calculate_totals).tax
      = ((o.calculate_totals).subtotal + (o.calculate_totals).delivery_fee) * (1/10)
    ∧ (o.calculate_totals).total
      = (o.calculate_totals).subtotal + (o.calculate_totals).delivery_fee
        + (o.calculate_totals).tax - (o.calculate_totals).discount := by
  unfold Order.calculate_totals
  constructor <;> rfl

/-- The §8.6 example order: delivery, one line item of two units at 20.00
with one customization at 1.00 extra, no discount. -/
def exampleOrder : Order :=
  { status := .open_
    items := [{ quantity := 2, unit_price := 20, customizations := [{ extra_price := 1 }] }]
    is_delivery := true
    subtotal := 0
    delivery_fee := 0
    discount := 0
    tax := 0
    total := 0 }

/-- C4: on the §8.6 example order the line-item subtotal is
`20.00*2 + 1.00*2 = 42.00` (the customization extra is multiplied by the
quantity), and `calculate_totals` yields subtotal 42.00, the defaulted
delivery fee 5.00, tax 4.70 and total 51.70. -/
theorem example_scenario_totals :
    (exampleOrder.items.map OrderItem.subtotal) = [42]
    ∧ (exampleOrder.calculate_totals).subtotal = 42
    ∧ (exampleOrder.calculate_totals).delivery_fee = 5
    ∧ (exampleOrder.calculate_totals).tax = 47/10
    ∧ (exampleOrder.calculate_totals).total = 517/10 := by
  refine ⟨?_, ?_, ?_, ?_, ?_⟩ <;>
    norm_num [exampleOrder, Order.calculate_totals, OrderItem.subtotal]

/-- C5: `calculate_totals` is idempotent — recomputing on an unchanged
order changes nothing: the subtotal is re-derived from the same items, a
delivery fee already defaulted to 5.00 is non-zero and hence preserved,
and tax and total are pure functions of those values. -/
theorem calculate_totals_idempotent (o : Order) :
    (o.calculate_totals).calculate_totals = o.calculate_totals := by
  cases o with
  | mk st items isd sub fee disc tax tot =>
    simp only [Order.calculate_totals]
    by_cases h : isd = true ∧ fee = 0
    · simp [h]
    · simp [h]

lemma save_manage_stock (p : Product) : (Product.save p).manage_stock = p.manage_stock := by
  simp only [Product.save, update_product_status]
  split_ifs <;> rfl

lemma save_stock_quantity (p : Product) : (Product.save p).stock_quantity = p.stock_quantity := by
  simp only [Product.save, update_product_status]
  split_ifs <;> rfl

lemma record_movement_ok_fields {p : Product} {t : MovementType} {a : Int}
    {m : StockMovement} {p2 : Product} (h : record_movement p t a = .ok (m, p2)) :
    m.previous_quantity = p.stock_quantity
    ∧ m.new_quantity = m.previous_quantity + m.quantity
    ∧ p2.stock_quantity = m.new_quantity := by
  simp only [record_movement] at h
  split_ifs at h
  injection h with h1
  rw [Prod.mk.injEq] at h1
  obtain ⟨hm, hp⟩ := h1
  subst hm
  subst hp
  refine ⟨rfl, rfl, ?_⟩
  rw [save_stock_quantity]

/-- C6: every ledger entry created by recording a movement satisfies
`new_quantity = previous_quantity + quantity` (adjustments store
`quantity = target - previous`), and since each entry's creation writes
its `new_quantity` back onto the product, applying any sequence of
movements leaves the product's stock at the initial quantity plus the sum
of the recorded signed deltas. -/
theorem stock_ledger_consistency (p : Product) (reqs : List (MovementType × Int)) :
    (apply_movements p reqs).1.stock_quantity
      = p.stock_quantity + ((apply_movements p reqs).2.map StockMovement.quantity).sum
    ∧ ∀ m ∈ (apply_movements p reqs).2,
        m.new_quantity = m.previous_quantity + m.quantity := by
  induction reqs generalizing p with
  | nil => simp [apply_movements]
  | cons r rest ih =>
    obtain ⟨t, a⟩ := r
    cases hrec : record_movement p t a with
    | error e =>
      have hred : apply_movements p ((t, a) :: rest) = apply_movements p rest := by
        simp only [apply_movements]
        rw [hrec]
      rw [hred]
      exact ih p
    | ok mp =>
      obtain ⟨m, p2⟩ := mp
      have hred : apply_movements p ((t, a) :: rest)
          = ((apply_movements p2 rest).1, m :: (apply_movements p2 rest).2) := by
        simp only [apply_movements]
        rw [hrec]
      rw [hred]
      obtain ⟨hprev, hnew, hp2⟩ := record_movement_ok_fields hrec
      obtain ⟨ihstock, ihinv⟩ := ih p2
      constructor
      · rw [List.map_cons, List.sum_cons, ihstock, hp2, hnew, hprev]
        ring
      · intro m2 hm2
        rcases List.mem_cons.mp hm2 with hm2 | hm2
        · rw [hm2]
          exact hnew
        · exact ihinv m2 hm2

/-- A stock-managed product with 5 units on hand, threshold 2, status
active — the §8.7 scenario product. -/
def scenarioProduct : Product :=
  { manage_stock := true, stock_quantity := 5, low_stock_threshold := 2, status := .active }

/-- The ledger entries produced by the witness run on `scenarioProduct`:
an inbound movement of 10 and an adjustment to 8. -/
def witnessRequests : List (MovementType × Int) := [(.in_, 10), (.adjustment, 8)]

/-- Witness for C6 at a concrete input: on `scenarioProduct`, an inbound
movement of 10 followed by an adjustment to 8 leaves stock
`5 + 10 + (-7) = 8`, and the adjustment's ledger entry satisfies
`new_quantity = previous_quantity + quantity`. -/
theorem stock_ledger_consistency_witness :
    ((apply_movements scenarioProduct witnessRequests).1.stock_quantity
      = scenarioProduct.stock_quantity
        + ((apply_movements scenarioProduct witnessRequests).2.map StockMovement.quantity).sum)
    ∧ (StockMovement.mk .adjustment (-7) 15 8).new_quantity
      = (StockMovement.mk .adjustment (-7) 15 8).previous_quantity
        + (StockMovement.mk .adjustment (-7) 15 8).quantity :=
  ⟨(stock_ledger_consistency scenarioProduct witnessRequests).1,
    (stock_ledger_consistency scenarioProduct witnessRequests).2
      (StockMovement.mk .adjustment (-7) 15 8) (by decide)⟩

/-- C7: an outbound movement whose delta would drive `new_quantity` below
zero on a stock-managed product is rejected with `InsufficientStock`, and
neither the product nor the ledger changes: applying just that request
returns the original product and an empty ledger. -/
theorem insufficient_stock_rejected (p : Product) (a : Int)
    (hm : p.manage_stock = true) (hneg : p.stock_quantity - a < 0) :
    record_movement p .out a = .error .insufficientStock
    ∧ apply_movements p [(.out, a)] = (p, []) := by
  have h1 : record_movement p .out a = .error .insufficientStock := by
    dsimp only [record_movement]
    rw [if_pos ⟨rfl, hm, by omega⟩]
  refine ⟨h1, ?_⟩
  simp only [apply_movements]
  rw [h1]

/-- Witness for C7 at a concrete input: taking 9 units out of a
stock-managed product holding 5 is rejected and changes nothing. -/
theorem insufficient_stock_rejected_witness :
    record_movement scenarioProduct .out 9 = .error .insufficientStock
    ∧ apply_movements scenarioProduct [(.out, 9)] = (scenarioProduct, []) :=
  insufficient_stock_rejected scenarioProduct 9 (by decide) (by decide)

/-- C8: after any save of a stock-managed product, a quantity at or below
zero forces status `out_of_stock`, and a positive quantity on a product
whose status reads `out_of_stock` restores `active`; hence the §8.7
scenario — 5 on hand, outbound 5, inbound 3 — passes through
`new_quantity = 0` / `out_of_stock` and ends at `new_quantity = 3` /
`active`. -/
theorem stock_status_invariant (p : Product) (hm : p.manage_stock = true) :
    (p.stock_quantity ≤ 0 → (Product.save p).status = .out_of_stock)
    ∧ (p.stock_quantity > 0 → p.status = .out_of_stock → (Product.save p).status = .active)
    ∧ record_movement scenarioProduct .out 5
        = .ok (⟨.out, -5, 5, 0⟩,
            { manage_stock := true, stock_quantity := 0, low_stock_threshold := 2,
              status := .out_of_stock })
    ∧ record_movement
        { manage_stock := true, stock_quantity := 0, low_stock_threshold := 2,
          status := .out_of_stock } .in_ 3
        = .ok (⟨.in_, 3, 0, 3⟩,
            { manage_stock := true, stock_quantity := 3, low_stock_threshold := 2,
              status := .active }) := by
  refine ⟨?_, ?_, rfl, rfl⟩
  · intro hle
    have hsave : Product.save p = update_product_status { p with status := .out_of_stock } := by
      unfold Product.save
      rw [if_pos ⟨hm, hle⟩]
    rw [hsave]
    simp [update_product_status, hm, hle]
  · intro hpos hout
    have hsave : Product.save p = update_product_status p := by
      unfold Product.save
      rw [if_neg (fun h => absurd h.2 (by omega))]
    rw [hsave]
    simp [update_product_status, hm, hout, show ¬ p.stock_quantity ≤ 0 by omega, hpos]

/-- Witness for C8 at a concrete input: saving a stock-managed product
with zero stock marks it out of stock, and saving one with positive stock
that was marked out of stock reactivates it. -/
theorem stock_status_invariant_witness :
    (Product.save
        { manage_stock := true, stock_quantity := 0, low_stock_threshold := 2,
          status := .active }).status = .out_of_stock
    ∧ (Product.save
        { manage_stock := true, stock_quantity := 3, low_stock_threshold := 2,
          status := .out_of_stock }).status = .active :=
  ⟨(stock_status_invariant
      { manage_stock := true, stock_quantity := 0, low_stock_threshold := 2,
        status := .active } (by decide)).1 (by decide),
    (stock_status_invariant
      { manage_stock := true, stock_quantity := 3, low_stock_threshold := 2,
        status := .out_of_stock } (by decide)).2.1 (by decide) (by decide)⟩

/-- C9: creating `n` orders sequentially on one day assigns the suffixes
`1, 2, ..., n` — no gaps, no duplicates — and the rendered
`PD-<date>-<NNN>` order numbers are pairwise distinct. -/
theorem order_numbering_sequential (date_str : String) (n : Nat) :
    createOrders n = List.range' 1 n
    ∧ ((createOrders n).map (mkOrderNumber date_str)).Nodup
    ∧ ((createOrders n).map (mkOrderNumber date_str)).length = n := by
  refine ⟨createOrders_eq_range' n, ?_, ?_⟩
  · exact List.Nodup.map (mkOrderNumber_injective date_str)
      (by rw [createOrders_eq_range' n]; exact List.nodup_range' 1 n)
  · rw [createOrders_eq_range' n, List.length_map, List.length_range']

/-- Wraps `Product.reduce_stock` threaded through an ambient ledger: the method
(src/products/models.py 384-392) only writes the product row and creates
no `StockMovement`, so the ledger passes through unchanged. -/
def reduce_stock_with_ledger (p : Product) (ledger : List StockMovement) (q : Int) :
    (Product × Bool) × List StockMovement := (p.reduce_stock q, ledger)

/-- Wraps `Product.increase_stock` threaded through an ambient ledger: the method
(src/products/models.py 394-400) only writes the product row and creates
no `StockMovement`, so the ledger passes through unchanged. -/
def increase_stock_with_ledger (p : Product) (ledger : List StockMovement) (q : Int) :
    (Product × Bool) × List StockMovement := (p.increase_stock q, ledger)

/-- C10: `reduce_stock` on a stock-managed product returns `false` and
leaves the quantity unchanged when there is not enough stock, and
otherwise decrements by `quantity` and returns `true`; with stock
management off both methods return `true` and change nothing; and neither
method appends a `StockMovement` to the ledger. -/
theorem reduce_increase_stock_contract (p : Product) (q : Int) (ledger : List StockMovement) :
    (p.manage_stock = true → p.stock_quantity < q → p.reduce_stock q = (p, false))
    ∧ (p.manage_stock = true → q ≤ p.stock_quantity →
        (p.reduce_stock q).2 = true
        ∧ (p.reduce_stock q).1.stock_quantity = p.stock_quantity - q)
    ∧ (p.manage_stock = false →
        p.reduce_stock q = (p, true) ∧ p.increase_stock q = (p, true))
    ∧ (p.manage_stock = true →
        (p.increase_stock q).2 = true
        ∧ (p.increase_stock q).1.stock_quantity = p.stock_quantity + q)
    ∧ reduce_stock_with_ledger p ledger q = (p.reduce_stock q, ledger)
    ∧ increase_stock_with_ledger p ledger q = (p.increase_stock q, ledger) := by
  refine ⟨?_, ?_, ?_, ?_, rfl, rfl⟩
  · intro hm hlt
    unfold Product.reduce_stock
    rw [if_pos hm, if_neg (by omega)]
  · intro hm hge
    unfold Product.reduce_stock
    rw [if_pos hm, if_pos (by omega)]
    exact ⟨rfl, save_stock_quantity _⟩
  · intro hm
    unfold Product.reduce_stock Product.increase_stock
    rw [if_neg (by simp [hm]), if_neg (by simp [hm])]
    exact ⟨rfl, rfl⟩
  · intro hm
    unfold Product.increase_stock
    rw [if_pos hm]
    exact ⟨rfl, save_stock_quantity _⟩

/-- Witness for C10 at concrete inputs: on a stock-managed product with 5
units, reducing by 9 fails and changes nothing, while reducing by 2
succeeds and leaves 3 units. -/
theorem reduce_increase_stock_contract_witness :
    scenarioProduct.reduce_stock 9 = (scenarioProduct, false)
    ∧ ((scenarioProduct.reduce_stock 2).2 = true
        ∧ (scenarioProduct.reduce_stock 2).1.stock_quantity
            = scenarioProduct.stock_quantity - 2) :=
  ⟨(reduce_increase_stock_contract scenarioProduct 9 []).1 (by decide) (by decide),
    (reduce_increase_stock_contract scenarioProduct 2 []).2.1 (by decide) (by decide)⟩

end EstudosJG
